import Mathlib

/-!
# Verification of the DhakaCart fault-tolerant cache-client layer

A shallow embedding of `src/backend/redis.js` (`RedisConnectionPool`: the
Connection Manager, Operation Facade, Derived Services and Rate Limiter) and
of the `HealthChecker` liveness aggregation from `src/backend/scripts/migrate.js`,
together with theorems settling the specification's claims about them.

Modelling conventions:
* The remote key-value store is a `Store`: an association list from keys to
  `(value, optional absolute expiry time)`.  Time is an explicit `now : Nat`
  (seconds); a key whose expiry is `≤ now` is gone, matching server-side TTL.
* A JavaScript call on the underlying client that may throw is modelled by an
  explicit `fault : Bool` argument: `fault = true` means "this client call
  threw".  Code that catches the error returns a total result; code with no
  surrounding `try/catch` returns `Except String _`, where `.error` is an
  exception propagating to the caller.
* `JSON.stringify` / `JSON.parse` (platform built-ins) are modelled for a
  payload type of natural numbers: `jsonParse` inverts `jsonStringify` and
  fails on any string that is not a serialized value, which is the one
  property of the platform codec the claims depend on.
* JavaScript truthiness on `string | null` (used by `getSession` /
  `getCachedData`) is: `null` and `""` are falsy, all other strings truthy.
-/

namespace DhakaCart

/-- The remote key-value store: (key, value, optional absolute expiry). -/
structure Store where
  entries : List (String × String × Option Nat)
deriving Repr, DecidableEq

/-- The empty store. -/
def Store.empty : Store := ⟨[]⟩

/-- Raw association-list lookup, ignoring expiry. -/
def Store.findEntry (st : Store) (key : String) : Option (String × Option Nat) :=
  (st.entries.find? (fun e => e.1 == key)).map (fun e => e.2)

/-- Value visible at time `now` (a key with expiry `≤ now` is gone). -/
def Store.lookup (st : Store) (now : Nat) (key : String) : Option String :=
  match st.findEntry key with
  | some (v, some exp) => if exp ≤ now then none else some v
  | some (v, none) => some v
  | none => none

/-- Write `key ↦ (value, exp)`, replacing any previous entry for `key`. -/
def Store.setEntry (st : Store) (key value : String) (exp : Option Nat) : Store :=
  ⟨(key, value, exp) :: st.entries.filter (fun e => ¬ e.1 == key)⟩

/-- Remove a key. -/
def Store.removeKey (st : Store) (key : String) : Store :=
  ⟨st.entries.filter (fun e => ¬ e.1 == key)⟩

/-- Redis `EXPIRE`: set the expiry of an existing key; no-op on a missing key. -/
def Store.setExpiry (st : Store) (key : String) (exp : Nat) : Store :=
  match st.findEntry key with
  | some (v, _) => st.setEntry key v (some exp)
  | none => st

/-- Decimal accumulator for `decimalNat?`. -/
def decimalNatAux : List Char → Nat → Option Nat
  | [], acc => some acc
  | c :: cs, acc =>
      if c.isDigit then decimalNatAux cs (acc * 10 + (c.toNat - 48))
      else none

/-- The runtime's string→number read (used by `JSON.parse` on number payloads
and by Redis's integer interpretation in `INCR`): `some` exactly on nonempty
all-digit strings. -/
def decimalNat? (s : String) : Option Nat :=
  match s.data with
  | [] => none
  | cs => decimalNatAux cs 0

/-- Redis `INCR` at time `now`: an absent or expired key becomes `1` with no
expiry; a live key has its integer value incremented, keeping its expiry. -/
def Store.incr (st : Store) (now : Nat) (key : String) : Nat × Store :=
  match st.findEntry key with
  | some (v, some exp) =>
      if exp ≤ now then (1, st.setEntry key "1" none)
      else
        let n := (decimalNat? v).getD 0 + 1
        (n, st.setEntry key (toString n) (some exp))
  | some (v, none) =>
      let n := (decimalNat? v).getD 0 + 1
      (n, st.setEntry key (toString n) none)
  | none => (1, st.setEntry key "1" none)

/-- Model of the platform `JSON.stringify` restricted to the payload type used
in this development (natural numbers serialize to their decimal literal). -/
def jsonStringify (d : Nat) : String := toString d

/-- Model of the platform `JSON.parse` on the same payload type: inverts
`jsonStringify`, and throws (returns `.error`) on any string that is not a
serialized value — e.g. `jsonParse "not-json" = .error _`. -/
def jsonParse (s : String) : Except String Nat :=
  match decimalNat? s with
  | some n => .ok n
  | none => .error "SyntaxError: Unexpected token in JSON"

instance : DecidableEq (Except String (Option Nat)) := fun a b =>
  match a, b with
  | .ok x, .ok y => decidable_of_iff (x = y) (by simp)
  | .ok _, .error _ => isFalse (by simp)
  | .error _, .ok _ => isFalse (by simp)
  | .error x, .error y => decidable_of_iff (x = y) (by simp)

/-- The `RedisConnectionPool` state relevant to the claims: the connectivity
flag and the retry/backoff parameters set in the constructor
(`redis.js` lines 4–12).  The transport handle itself is external. -/
structure RedisConnectionPool where
  isConnected : Bool
  maxRetries : Nat
  retryDelay : ℚ
  maxRetryDelay : ℚ
deriving Repr, DecidableEq

/-- The constructor (`redis.js` lines 5–12): starts disconnected, 5 retries,
1 s base delay, 30 s max delay. -/
def RedisConnectionPool.new : RedisConnectionPool :=
  { isConnected := false, maxRetries := 5, retryDelay := 1000, maxRetryDelay := 30000 }

/-- `getReconnectDelay(retries)` (`redis.js` lines 87–101): past `maxRetries`
return `false` (modelled `none`, do not retry); otherwise
`min(retryDelay * 2^retries + jitter, maxRetryDelay)` where `jitter` is the
sampled `Math.random() * 1000`. -/
def RedisConnectionPool.getReconnectDelay (p : RedisConnectionPool) (retries : Nat)
    (jitter : ℚ) : Option ℚ :=
  if p.maxRetries ≤ retries then none
  else some (min (p.retryDelay * 2 ^ retries + jitter) p.maxRetryDelay)

/-- JavaScript `number | false` results (the Facade's `del`/`exists` return the
client's numeric reply on success and the literal `false` on the guarded
paths). -/
inductive NumOrFalse where
  | num (n : Nat)
  | jsFalse
deriving Repr, DecidableEq

/-- Facade `get(key)` (`redis.js` 190–205): `null` when disconnected; the
client call's error is caught and turned into `null`; otherwise the store
value. -/
def RedisConnectionPool.get (p : RedisConnectionPool) (st : Store) (now : Nat)
    (fault : Bool) (key : String) : Option String × Store :=
  if p.isConnected = false then (none, st)
  else if fault then (none, st)
  else (st.lookup now key, st)

/-- Facade `set(key, value, options)` (`redis.js` 207–223): `false` when
disconnected or on a caught client error; otherwise writes (with optional
`EX` TTL in seconds, made absolute against `now`) and returns `true`. -/
def RedisConnectionPool.set (p : RedisConnectionPool) (st : Store) (now : Nat)
    (fault : Bool) (key value : String) (ex : Option Nat := none) : Bool × Store :=
  if p.isConnected = false then (false, st)
  else if fault then (false, st)
  else (true, st.setEntry key value (ex.map (fun t => now + t)))

/-- Facade `del(key)` (`redis.js` 225–240): `false` when disconnected or on a
caught client error; otherwise the client's deleted-key count. -/
def RedisConnectionPool.del (p : RedisConnectionPool) (st : Store) (now : Nat)
    (fault : Bool) (key : String) : NumOrFalse × Store :=
  if p.isConnected = false then (.jsFalse, st)
  else if fault then (.jsFalse, st)
  else
    match st.lookup now key with
    | some _ => (.num 1, st.removeKey key)
    | none => (.num 0, st.removeKey key)

/-- Facade `exists(key)` (`redis.js` 242–257): `false` when disconnected or on
a caught client error; otherwise the client's 0/1 count. -/
def RedisConnectionPool.existsKey (p : RedisConnectionPool) (st : Store) (now : Nat)
    (fault : Bool) (key : String) : NumOrFalse × Store :=
  if p.isConnected = false then (.jsFalse, st)
  else if fault then (.jsFalse, st)
  else
    match st.lookup now key with
    | some _ => (.num 1, st)
    | none => (.num 0, st)

/-- Facade `expire(key, seconds)` (`redis.js` 259–275): `false` when
disconnected or on a caught client error; otherwise the client's boolean
reply (`true` iff the key exists and its expiry was set). -/
def RedisConnectionPool.expire (p : RedisConnectionPool) (st : Store) (now : Nat)
    (fault : Bool) (key : String) (seconds : Nat) : Bool × Store :=
  if p.isConnected = false then (false, st)
  else if fault then (false, st)
  else
    match st.lookup now key with
    | some _ => (true, st.setExpiry key (now + seconds))
    | none => (false, st)

/-- `getSession(sessionId)` (`redis.js` 278–281): reads `session:<id>` through
the Facade; a falsy value (`null` or `""`) gives `null`; otherwise the value
is fed to `JSON.parse` with **no surrounding try/catch**, so a parse failure
propagates to the caller (the `.error` case). -/
def RedisConnectionPool.getSession (p : RedisConnectionPool) (st : Store) (now : Nat)
    (fault : Bool) (sessionId : String) : Except String (Option Nat) × Store :=
  let r := p.get st now fault ("session:" ++ sessionId)
  match r.1 with
  | none => (.ok none, r.2)
  | some s =>
      if s = "" then (.ok none, r.2)
      else
        match jsonParse s with
        | .ok v => (.ok (some v), r.2)
        | .error e => (.error e, r.2)

/-- `setSession(sessionId, sessionData, ttlSeconds = 3600)` (`redis.js`
283–290): serializes and stores under `session:<id>` with `EX` TTL; the TTL
argument defaults to 3600. -/
def RedisConnectionPool.setSession (p : RedisConnectionPool) (st : Store) (now : Nat)
    (fault : Bool) (sessionId : String) (sessionData : Nat)
    (ttlSeconds : Nat := 3600) : Bool × Store :=
  p.set st now fault ("session:" ++ sessionId) (jsonStringify sessionData) (some ttlSeconds)

/-- `deleteSession(sessionId)` (`redis.js` 292–294). -/
def RedisConnectionPool.deleteSession (p : RedisConnectionPool) (st : Store) (now : Nat)
    (fault : Bool) (sessionId : String) : NumOrFalse × Store :=
  p.del st now fault ("session:" ++ sessionId)

/-- `getCachedData(key)` (`redis.js` 297–300): like `getSession` under
`cache:<key>`, with the same unguarded `JSON.parse`. -/
def RedisConnectionPool.getCachedData (p : RedisConnectionPool) (st : Store) (now : Nat)
    (fault : Bool) (key : String) : Except String (Option Nat) × Store :=
  let r := p.get st now fault ("cache:" ++ key)
  match r.1 with
  | none => (.ok none, r.2)
  | some s =>
      if s = "" then (.ok none, r.2)
      else
        match jsonParse s with
        | .ok v => (.ok (some v), r.2)
        | .error e => (.error e, r.2)

/-- `setCachedData(key, data, ttlSeconds = 300)` (`redis.js` 302–309): the TTL
argument defaults to 300. -/
def RedisConnectionPool.setCachedData (p : RedisConnectionPool) (st : Store) (now : Nat)
    (fault : Bool) (key : String) (data : Nat) (ttlSeconds : Nat := 300) : Bool × Store :=
  p.set st now fault ("cache:" ++ key) (jsonStringify data) (some ttlSeconds)

/-- Glob match for Redis `KEYS` patterns restricted to the `*` wildcard (the
only one the repository uses). -/
def globMatch : List Char → List Char → Bool
  | [], [] => true
  | [], _ :: _ => false
  | '*' :: ps, [] => globMatch ps []
  | '*' :: ps, c :: cs => globMatch ps (c :: cs) || globMatch ('*' :: ps) cs
  | p :: ps, c :: cs => p == c && globMatch ps cs
  | _ :: _, [] => false
termination_by ps cs => (ps.length, cs.length)

/-- Live keys matching a pattern at time `now` (Redis `KEYS pattern`). -/
def Store.keysMatching (st : Store) (now : Nat) (pattern : String) : List String :=
  (st.entries.map (fun e => e.1)).filter
    (fun k => globMatch pattern.toList k.toList && (st.lookup now k).isSome)

/-- `invalidateCache(pattern)` (`redis.js` 311–331): guarded by the
connectivity flag and a try/catch; scans `cache:<pattern>` then bulk-deletes
the found keys, returning `true` even when nothing matched. -/
def RedisConnectionPool.invalidateCache (p : RedisConnectionPool) (st : Store) (now : Nat)
    (fault : Bool) (pattern : String) : Bool × Store :=
  if p.isConnected = false then (false, st)
  else if fault then (false, st)
  else
    let ks := st.keysMatching now ("cache:" ++ pattern)
    if 0 < ks.length then (true, ks.foldl (fun s k => s.removeKey k) st)
    else (true, st)

/-- The object `checkRateLimit` returns: `current` is absent (`none`) on the
fail-open paths, present on the normal path. -/
structure RateLimitResult where
  allowed : Bool
  remaining : Nat
  current : Option Nat
deriving Repr, DecidableEq

/-- `checkRateLimit(identifier, limit, windowSeconds)` (`redis.js` 334–358):
fail-open (`allowed = true, remaining = limit`) when disconnected; otherwise
`INCR rate_limit:<identifier>`; if the count is 1, `EXPIRE` it to the window;
any client error inside the try block (modelled by `incrFault` for the
increment, `expireFault` for the expire) is caught and also fails open. -/
def RedisConnectionPool.checkRateLimit (p : RedisConnectionPool) (st : Store) (now : Nat)
    (incrFault expireFault : Bool) (identifier : String) (limit : Nat)
    (windowSeconds : Nat) : RateLimitResult × Store :=
  if p.isConnected = false then
    ({ allowed := true, remaining := limit, current := none }, st)
  else if incrFault then
    ({ allowed := true, remaining := limit, current := none }, st)
  else
    let key := "rate_limit:" ++ identifier
    let r := st.incr now key
    let current := r.1
    if current = 1 then
      if expireFault then
        ({ allowed := true, remaining := limit, current := none }, r.2)
      else
        ({ allowed := decide (current ≤ limit), remaining := limit - current,
           current := some current }, r.2.setExpiry key (now + windowSeconds))
    else
      ({ allowed := decide (current ≤ limit), remaining := limit - current,
         current := some current }, r.2)

/-- What `disconnect()` did to the transport. -/
inductive ShutdownAction where
  | noAction
  | gracefulQuit
  | forcedDisconnect
deriving Repr, DecidableEq

/-- `disconnect()` (`redis.js` 149–160): acts only when a client handle exists
AND `isConnected` is true; then tries `quit()`, and if that throws, falls back
to `disconnect()` — whose own failure is uncaught (`.error`). -/
def RedisConnectionPool.disconnect (p : RedisConnectionPool)
    (clientExists quitThrows forceThrows : Bool) : Except String ShutdownAction :=
  if clientExists && p.isConnected then
    if quitThrows then
      if forceThrows then .error "disconnect failed"
      else .ok .forcedDisconnect
    else .ok .gracefulQuit
  else .ok .noAction

/-- The health-status vocabulary of the probes in
`src/backend/scripts/migrate.js` (`checkDatabase`, `checkRedis` via
`RedisConnectionPool.healthCheck`, `checkMemory`). -/
inductive HealthStatus where
  | healthy
  | degraded
  | unhealthy
  | not_configured
deriving Repr, DecidableEq, BEq, Fintype

/-- `HealthChecker.determineOverallStatus(statuses)` (`migrate.js` 376–384):
any `unhealthy` wins; else all-`healthy` gives `healthy`; else `degraded`. -/
def determineOverallStatus (statuses : List HealthStatus) : HealthStatus :=
  if statuses.contains .unhealthy then .unhealthy
  else if statuses.all (fun s => s == .healthy) then .healthy
  else .degraded

/-- The status list `performHealthCheck` feeds to the reduction (`migrate.js`
306–310): database, cache with `not_configured` mapped to `healthy`, memory. -/
def livenessInputs (dbStatus redisStatus memStatus : HealthStatus) : List HealthStatus :=
  [dbStatus,
   if redisStatus == .not_configured then .healthy else redisStatus,
   memStatus]

/-- The status slot of `performHealthCheck`'s success path (`migrate.js`
306–310). -/
def performHealthCheckStatus (dbStatus redisStatus memStatus : HealthStatus) : HealthStatus :=
  determineOverallStatus (livenessInputs dbStatus redisStatus memStatus)

/-- The keys, in source order, of the object literal `performHealthCheck`
returns on its success path (`migrate.js` 314–326). -/
def performHealthCheckKeys : List String :=
  ["status", "timestamp", "uptime", "responseTime", "version", "environment", "checks"]

/-- The keys, in source order, of the `checks` sub-object of the liveness
result (`migrate.js` 321–325). -/
def performHealthCheckChecksKeys : List String :=
  ["database", "redis", "memory"]

/-- Modelled from the spec: the `checks` keys the spec's liveness contract
names (`checks: {cache, store, memory}`), for comparison with the source's
`performHealthCheckChecksKeys`. -/
def specLivenessChecksKeys : List String :=
  ["cache", "store", "memory"]

/-- Modelled from the spec: the top-level liveness-contract keys the spec
names (`{status, timestamp, uptime, responseTime, checks}`), for comparison
with the source's `performHealthCheckKeys`. -/
def specLivenessKeys : List String :=
  ["status", "timestamp", "uptime", "responseTime", "checks"]

/-- A pool after the transport's `ready` event fired (`redis.js` 108–112 sets
`isConnected = true`); all other constructor fields unchanged. -/
def connectedPool : RedisConnectionPool :=
  { RedisConnectionPool.new with isConnected := true }

/-! ## Theorems settling the claims -/

/-- C1: every primitive Facade operation (get, set, del, exists, expire)
returns its safe default — `null` for get, `false` for the others — both when
`isConnected` is false and when the underlying client call throws; the error
is never propagated (the operations are total functions in this model because
the source wraps every client call in try/catch). -/
theorem facade_ops_fail_soft (p : RedisConnectionPool) (st : Store) (now : Nat)
    (fault : Bool) (key value : String) (ex : Option Nat) (seconds : Nat)
    (h : p.isConnected = false ∨ fault = true) :
    (p.get st now fault key).1 = none ∧
    (p.set st now fault key value ex).1 = false ∧
    (p.del st now fault key).1 = NumOrFalse.jsFalse ∧
    (p.existsKey st now fault key).1 = NumOrFalse.jsFalse ∧
    (p.expire st now fault key seconds).1 = false := by
  rcases h with h | h
  · simp [RedisConnectionPool.get, RedisConnectionPool.set, RedisConnectionPool.del,
      RedisConnectionPool.existsKey, RedisConnectionPool.expire, h]
  · cases hp : p.isConnected <;>
      simp [RedisConnectionPool.get, RedisConnectionPool.set, RedisConnectionPool.del,
        RedisConnectionPool.existsKey, RedisConnectionPool.expire, h, hp]

/-- Witness for C1: a freshly constructed (disconnected) pool returns every
safe default on the empty store. -/
theorem facade_ops_fail_soft_witness :
    (RedisConnectionPool.new.get Store.empty 0 false "k").1 = none ∧
    (RedisConnectionPool.new.set Store.empty 0 false "k" "v" none).1 = false ∧
    (RedisConnectionPool.new.del Store.empty 0 false "k").1 = NumOrFalse.jsFalse ∧
    (RedisConnectionPool.new.existsKey Store.empty 0 false "k").1 = NumOrFalse.jsFalse ∧
    (RedisConnectionPool.new.expire Store.empty 0 false "k" 1).1 = false :=
  facade_ops_fail_soft RedisConnectionPool.new Store.empty 0 false "k" "v" none 1
    (Or.inl rfl)

/-- C2: `checkRateLimit` fails open — it returns
`{ allowed := true, remaining := limit }` (no `current` field) whenever the
store is disconnected, the increment throws, or the expire performed on a
first count throws — regardless of the store's prior contents. -/
theorem checkRateLimit_fails_open (p : RedisConnectionPool) (st : Store) (now : Nat)
    (incrFault expireFault : Bool) (identifier : String) (limit windowSeconds : Nat)
    (h : p.isConnected = false ∨ incrFault = true ∨
        (expireFault = true ∧ (st.incr now ("rate_limit:" ++ identifier)).1 = 1)) :
    (p.checkRateLimit st now incrFault expireFault identifier limit windowSeconds).1
      = { allowed := true, remaining := limit, current := none } := by
  rcases h with h | h | ⟨h1, h2⟩
  · simp [RedisConnectionPool.checkRateLimit, h]
  · cases hp : p.isConnected <;> simp [RedisConnectionPool.checkRateLimit, h, hp]
  · cases incrFault
    · cases hp : p.isConnected <;>
        simp [RedisConnectionPool.checkRateLimit, h1, h2, hp]
    · cases hp : p.isConnected <;>
        simp [RedisConnectionPool.checkRateLimit, hp]

/-- Witness for C2: disconnected pool, a store already holding 99 prior calls
for the identifier, limit 3 — the call still reports `allowed = true`. -/
theorem checkRateLimit_fails_open_witness :
    (RedisConnectionPool.new.checkRateLimit
        (Store.empty.setEntry "rate_limit:id" "99" none) 0 false false "id" 3 60).1
      = { allowed := true, remaining := 3, current := none } :=
  checkRateLimit_fails_open RedisConnectionPool.new
    (Store.empty.setEntry "rate_limit:id" "99" none) 0 false false "id" 3 60
    (Or.inl rfl)

/-- C3 (failing-input evaluation): `getSession` on a connected pool whose store
holds the non-JSON string `"not-json"` under `session:s` propagates the
`JSON.parse` exception to the caller instead of degrading to `null` — the
parse in `redis.js` line 280 has no surrounding try/catch.  (`getCachedData`
at line 299 fails identically.) -/
theorem getSession_throws_on_invalid_json :
    (connectedPool.getSession (Store.empty.setEntry "session:s" "not-json" none)
        0 false "s").1
      = Except.error "SyntaxError: Unexpected token in JSON" ∧
    (connectedPool.getCachedData (Store.empty.setEntry "cache:k" "not-json" none)
        0 false "k").1
      = Except.error "SyntaxError: Unexpected token in JSON" := by
  constructor <;> decide

/-- C4: on the happy path (connected, no client error) `checkRateLimit`
increments the counter at `rate_limit:<identifier>`, sets its TTL to the
window exactly when the new count is 1 (otherwise the store is left as the
increment alone produced it), and returns
`allowed = (count ≤ limit)`, `remaining = limit − count` (truncated at 0),
`current = count`; and on a fresh identifier with `limit = 3, window = 60`,
calls at times 0,1,2,3 return `allowed = true` with remaining 2,1,0, then
`allowed = false` with remaining 0, and the call at time 60 (the TTL having
elapsed) sees `count = 1, allowed = true` again. -/
theorem checkRateLimit_correct :
    (∀ (st : Store) (now : Nat) (identifier : String) (limit windowSeconds : Nat),
      (connectedPool.checkRateLimit st now false false identifier limit windowSeconds).1
        = { allowed := decide ((st.incr now ("rate_limit:" ++ identifier)).1 ≤ limit),
            remaining := limit - (st.incr now ("rate_limit:" ++ identifier)).1,
            current := some (st.incr now ("rate_limit:" ++ identifier)).1 } ∧
      ((st.incr now ("rate_limit:" ++ identifier)).1 = 1 →
        (connectedPool.checkRateLimit st now false false identifier limit windowSeconds).2
          = ((st.incr now ("rate_limit:" ++ identifier)).2).setExpiry
              ("rate_limit:" ++ identifier) (now + windowSeconds)) ∧
      (¬ (st.incr now ("rate_limit:" ++ identifier)).1 = 1 →
        (connectedPool.checkRateLimit st now false false identifier limit windowSeconds).2
          = (st.incr now ("rate_limit:" ++ identifier)).2)) ∧
    (let r1 := connectedPool.checkRateLimit Store.empty 0 false false "id" 3 60
     let r2 := connectedPool.checkRateLimit r1.2 1 false false "id" 3 60
     let r3 := connectedPool.checkRateLimit r2.2 2 false false "id" 3 60
     let r4 := connectedPool.checkRateLimit r3.2 3 false false "id" 3 60
     let r5 := connectedPool.checkRateLimit r4.2 60 false false "id" 3 60
     r1.1 = { allowed := true, remaining := 2, current := some 1 } ∧
     r2.1 = { allowed := true, remaining := 1, current := some 2 } ∧
     r3.1 = { allowed := true, remaining := 0, current := some 3 } ∧
     r4.1 = { allowed := false, remaining := 0, current := some 4 } ∧
     r5.1 = { allowed := true, remaining := 2, current := some 1 }) := by
  refine ⟨?_, by decide⟩
  intro st now identifier limit windowSeconds
  by_cases h : (st.incr now ("rate_limit:" ++ identifier)).1 = 1 <;>
    simp [RedisConnectionPool.checkRateLimit, connectedPool, RedisConnectionPool.new, h]

/-- Witness for C4: on the empty store the first call's count is 1, so the
TTL is set to `now + windowSeconds` on the stored counter. -/
theorem checkRateLimit_correct_witness :
    (connectedPool.checkRateLimit Store.empty 0 false false "id" 3 60).2
      = ((Store.empty.incr 0 "rate_limit:id").2).setExpiry "rate_limit:id" 60 :=
  (checkRateLimit_correct.1 Store.empty 0 "id" 3 60).2.1 (by decide)

/-- C5: the liveness reduction over the probe triple (database, cache with
`not_configured` mapped to `healthy`, memory): any `unhealthy` gives overall
`unhealthy`; else all `healthy` gives `healthy`; otherwise `degraded` — and in
particular `[healthy, healthy, healthy] ↦ healthy`,
`[healthy, unhealthy, healthy] ↦ unhealthy`, and
`[healthy, not_configured, healthy] ↦ healthy`. -/
theorem healthReduction (d c m : HealthStatus) :
    ((livenessInputs d c m).contains .unhealthy = true →
      performHealthCheckStatus d c m = .unhealthy) ∧
    ((livenessInputs d c m).contains .unhealthy = false →
      (livenessInputs d c m).all (fun s => s == .healthy) = true →
      performHealthCheckStatus d c m = .healthy) ∧
    ((livenessInputs d c m).contains .unhealthy = false →
      (livenessInputs d c m).all (fun s => s == .healthy) = false →
      performHealthCheckStatus d c m = .degraded) ∧
    performHealthCheckStatus .healthy .healthy .healthy = .healthy ∧
    performHealthCheckStatus .healthy .unhealthy .healthy = .unhealthy ∧
    performHealthCheckStatus .healthy .not_configured .healthy = .healthy := by
  revert d c m
  decide

/-- Witness for C5: a triple containing an `unhealthy` probe reduces to
overall `unhealthy`. -/
theorem healthReduction_witness :
    performHealthCheckStatus .healthy .unhealthy .healthy = .unhealthy :=
  (healthReduction .healthy .unhealthy .healthy).1 (by decide)

/-- C6: for every attempt count below `maxRetries` (5) the reconnect delay is
`min(1000 · 2^attempt + jitter, 30000)` with the jitter sampled from
`[0, 1000)`; for every attempt count `≥ maxRetries` the function returns the
do-not-retry signal (`false`, modelled `none`) instead of a delay. -/
theorem getReconnectDelay_spec (retries : Nat) (jitter : ℚ)
    (_hj0 : 0 ≤ jitter) (_hj1 : jitter < 1000) :
    (retries < RedisConnectionPool.new.maxRetries →
      RedisConnectionPool.new.getReconnectDelay retries jitter
        = some (min (1000 * 2 ^ retries + jitter) 30000)) ∧
    (RedisConnectionPool.new.maxRetries ≤ retries →
      RedisConnectionPool.new.getReconnectDelay retries jitter = none) := by
  constructor <;> intro h <;>
    simp [RedisConnectionPool.getReconnectDelay, RedisConnectionPool.new] at h ⊢ <;>
    omega

/-- Witness for C6: attempt 2 with zero jitter gives a 4000 ms delay, and
attempt 5 gives the do-not-retry signal. -/
theorem getReconnectDelay_spec_witness :
    RedisConnectionPool.new.getReconnectDelay 2 0 = some (min (1000 * 2 ^ 2 + 0) 30000) ∧
    RedisConnectionPool.new.getReconnectDelay 5 0 = none :=
  ⟨(getReconnectDelay_spec 2 0 le_rfl (by norm_num)).1 (by norm_num [RedisConnectionPool.new]),
   (getReconnectDelay_spec 5 0 le_rfl (by norm_num)).2 (by norm_num [RedisConnectionPool.new])⟩

/-- C7: the backoff delay is non-decreasing in the attempt count: for attempts
`m < n` both below `maxRetries` and any independently sampled jitters in
`[0, 1000)`, the delay returned for attempt `m` is at most the delay returned
for attempt `n`. -/
theorem getReconnectDelay_monotone (m n : Nat) (jm jn : ℚ)
    (hmn : m < n) (hn : n < RedisConnectionPool.new.maxRetries)
    (hjm0 : 0 ≤ jm) (hjm1 : jm < 1000) (hjn0 : 0 ≤ jn) (hjn1 : jn < 1000)
    (dm dn : ℚ)
    (hdm : RedisConnectionPool.new.getReconnectDelay m jm = some dm)
    (hdn : RedisConnectionPool.new.getReconnectDelay n jn = some dn) :
    dm ≤ dn := by
  have hm : m < RedisConnectionPool.new.maxRetries := hmn.trans hn
  rw [(getReconnectDelay_spec m jm hjm0 hjm1).1 hm, Option.some_inj] at hdm
  rw [(getReconnectDelay_spec n jn hjn0 hjn1).1 hn, Option.some_inj] at hdn
  subst hdm hdn
  have h1 : (1 : ℚ) ≤ 2 ^ m := one_le_pow₀ (by norm_num)
  have h2 : (2 : ℚ) ^ (m + 1) ≤ 2 ^ n :=
    pow_le_pow_right₀ (by norm_num) (Nat.succ_le_of_lt hmn)
  have h3 : (2 : ℚ) ^ (m + 1) = 2 ^ m * 2 := pow_succ 2 m
  exact min_le_min (by nlinarith) le_rfl

/-- Witness for C7: attempt 1 with maximal jitter (999) stays below attempt 2
with zero jitter. -/
theorem getReconnectDelay_monotone_witness : (2999 : ℚ) ≤ 4000 :=
  getReconnectDelay_monotone 1 2 999 0 (by norm_num)
    (by norm_num [RedisConnectionPool.new]) (by norm_num) (by norm_num)
    (by norm_num) (by norm_num) 2999 4000
    (by norm_num [RedisConnectionPool.getReconnectDelay, RedisConnectionPool.new, min_def])
    (by norm_num [RedisConnectionPool.getReconnectDelay, RedisConnectionPool.new, min_def])

/-- C8 counterexample: the liveness payload's `checks` keys in the source are
`database`, `redis`, `memory` — not the `cache`, `store`, `memory` the claim
names — and the top level also carries `version` and `environment` beyond the
claimed five fields. -/
theorem livenessKeys_ne_claimed :
    performHealthCheckChecksKeys ≠ specLivenessChecksKeys ∧
    performHealthCheckKeys ≠ specLivenessKeys := by
  constructor <;> decide

/-- C8 (amended): the liveness result's top-level keys are, in source order,
`status`, `timestamp`, `uptime`, `responseTime`, `version`, `environment`,
`checks`; the `checks` keys are `database`, `redis`, `memory`; and the status
slot is always drawn from {healthy, degraded, unhealthy} (never
`not_configured`). -/
theorem livenessContract_fields :
    performHealthCheckKeys
      = ["status", "timestamp", "uptime", "responseTime", "version",
         "environment", "checks"] ∧
    performHealthCheckChecksKeys = ["database", "redis", "memory"] ∧
    ∀ d c m : HealthStatus,
      performHealthCheckStatus d c m = .healthy ∨
      performHealthCheckStatus d c m = .degraded ∨
      performHealthCheckStatus d c m = .unhealthy := by
  refine ⟨rfl, rfl, ?_⟩
  decide

/-- C9 counterexample: `disconnect()` with a client handle but `isConnected`
false does nothing (no quit, no release attempt), and when both the graceful
quit and the forced disconnect throw, the exception propagates to the
caller. -/
theorem disconnect_claim_cex :
    RedisConnectionPool.new.disconnect true false false
      = Except.ok ShutdownAction.noAction ∧
    connectedPool.disconnect true true true = Except.error "disconnect failed" := by
  constructor <;> rfl

/-- C9 (amended): `disconnect` attempts the graceful quit exactly when a
client handle exists and `isConnected` is true and the quit does not throw;
it falls back to the forced disconnect exactly when the quit throws and the
forced disconnect does not; the call propagates an exception exactly when
both throw; and it leaves the transport untouched exactly when there is no
client handle or `isConnected` is false. -/
theorem disconnect_characterization (p : RedisConnectionPool)
    (clientExists quitThrows forceThrows : Bool) :
    (p.disconnect clientExists quitThrows forceThrows = .ok .gracefulQuit ↔
      clientExists = true ∧ p.isConnected = true ∧ quitThrows = false) ∧
    (p.disconnect clientExists quitThrows forceThrows = .ok .forcedDisconnect ↔
      clientExists = true ∧ p.isConnected = true ∧ quitThrows = true ∧
        forceThrows = false) ∧
    ((∃ e, p.disconnect clientExists quitThrows forceThrows = .error e) ↔
      clientExists = true ∧ p.isConnected = true ∧ quitThrows = true ∧
        forceThrows = true) ∧
    (p.disconnect clientExists quitThrows forceThrows = .ok .noAction ↔
      clientExists = false ∨ p.isConnected = false) := by
  cases hp : p.isConnected <;> cases clientExists <;> cases quitThrows <;>
    cases forceThrows <;> simp [RedisConnectionPool.disconnect, hp]

/-- C10: with the TTL argument omitted, `setSession` stores under
`session:<id>` with a TTL of 3600 seconds and `setCachedData` stores under
`cache:<key>` with a TTL of 300 seconds (absolute expiry `now + 3600`,
`now + 300`), both returning `true` on the happy path. -/
theorem derived_default_ttls (st : Store) (now : Nat) (sessionId key : String)
    (sessionData cacheData : Nat) :
    connectedPool.setSession st now false sessionId sessionData
      = connectedPool.setSession st now false sessionId sessionData 3600 ∧
    connectedPool.setCachedData st now false key cacheData
      = connectedPool.setCachedData st now false key cacheData 300 ∧
    (connectedPool.setSession st now false sessionId sessionData).1 = true ∧
    (connectedPool.setSession st now false sessionId sessionData).2.findEntry
        ("session:" ++ sessionId)
      = some (jsonStringify sessionData, some (now + 3600)) ∧
    (connectedPool.setCachedData st now false key cacheData).1 = true ∧
    (connectedPool.setCachedData st now false key cacheData).2.findEntry
        ("cache:" ++ key)
      = some (jsonStringify cacheData, some (now + 300)) := by
  refine ⟨rfl, rfl, rfl, ?_, rfl, ?_⟩ <;>
    simp [RedisConnectionPool.setSession, RedisConnectionPool.setCachedData,
      RedisConnectionPool.set, Store.setEntry, Store.findEntry, connectedPool,
      RedisConnectionPool.new]

end DhakaCart
